import Mathlib

/-!
Verification of the `korad_powersupply` client (`src/korad.py`) against its
natural-language specification.

Shallow embedding conventions:
* Byte strings (`bytes`) are `List Nat` (each element a byte value 0–255).
* Python `str` is Lean `String` (manipulated through its `List Char` data).
* Python `float` values are modelled as exact decimal fractions (`Dec`);
  every numeric value exercised by the theorems below is a decimal for
  which exact arithmetic and IEEE double arithmetic agree on all
  comparisons the code performs (`Dec.toRat` gives the rational value).
* Fallible Python code (functions that can raise) returns `Except String`
  or `Option`; the `String` is the message of the exception raised.
* The UDP transport is modelled by a `Device`: a pure function from the
  list of commands sent so far to the byte reply that `recv` would return.
  Each client operation threads a trace `t : List String` of the commands
  sent so far (the `\x0d\x0a` framing that `_send_command` appends to every
  command is a fixed suffix and is left out of the recorded mnemonics).
-/

/-- Byte values of the UTF-8 encoding of an ASCII string (used to build
concrete device replies; for ASCII text `Char.toNat` is the UTF-8 byte). -/
def asciiBytes (s : String) : List Nat := s.data.map Char.toNat

/-- One step state of the UTF-8 decoder: `(acc, need, lo, hi)` means the
decoder is inside a multi-byte sequence with accumulated bits `acc`,
`need` continuation bytes still expected, and the next byte constrained
to `[lo, hi]` (the narrowed first-continuation ranges rule out overlong
encodings and surrogates, as CPython's strict `bytes.decode("utf-8")` does). -/
def utf8Aux : Option (Nat × Nat × Nat × Nat) → List Nat → Option (List Char)
  | none, [] => some []
  | some _, [] => none
  | none, b :: bs =>
    if b < 0x80 then (utf8Aux none bs).map (fun r => Char.ofNat b :: r)
    else if 0xC2 ≤ b ∧ b ≤ 0xDF then utf8Aux (some (b - 0xC0, 1, 0x80, 0xBF)) bs
    else if b = 0xE0 then utf8Aux (some (b - 0xE0, 2, 0xA0, 0xBF)) bs
    else if 0xE1 ≤ b ∧ b ≤ 0xEC then utf8Aux (some (b - 0xE0, 2, 0x80, 0xBF)) bs
    else if b = 0xED then utf8Aux (some (b - 0xE0, 2, 0x80, 0x9F)) bs
    else if 0xEE ≤ b ∧ b ≤ 0xEF then utf8Aux (some (b - 0xE0, 2, 0x80, 0xBF)) bs
    else if b = 0xF0 then utf8Aux (some (b - 0xF0, 3, 0x90, 0xBF)) bs
    else if 0xF1 ≤ b ∧ b ≤ 0xF3 then utf8Aux (some (b - 0xF0, 3, 0x80, 0xBF)) bs
    else if b = 0xF4 then utf8Aux (some (b - 0xF0, 3, 0x80, 0x8F)) bs
    else none
  | some (acc, need, lo, hi), b :: bs =>
    if lo ≤ b ∧ b ≤ hi then
      if need = 1 then (utf8Aux none bs).map (fun r => Char.ofNat (acc * 64 + (b - 0x80)) :: r)
      else utf8Aux (some (acc * 64 + (b - 0x80), need - 1, 0x80, 0xBF)) bs
    else none

/-- Strict UTF-8 decoding, `some` on valid input, `none` where Python's
`bytes.decode("utf-8")` raises `UnicodeDecodeError`. -/
def utf8Decode (bs : List Nat) : Option (List Char) := utf8Aux none bs

/-- Python `str.strip(c)` for a single character `c`: remove every leading
and every trailing occurrence of `c`. -/
def pyStrip (c : Char) (cs : List Char) : List Char :=
  ((cs.dropWhile (· = c)).reverse.dropWhile (· = c)).reverse

/-- Python `str.split(sep)` for a single-character separator: split at every
occurrence, keeping empty segments (`"".split(c) = [""]`). -/
def splitChar (sep : Char) : List Char → List (List Char)
  | [] => [[]]
  | c :: cs =>
    if c = sep then [] :: splitChar sep cs
    else
      match splitChar sep cs with
      | r :: rs => (c :: r) :: rs
      | [] => [[c]]

/-- Whitespace characters stripped by Python's `float(str)` / `int(str)`. -/
def pyIsSpace (c : Char) : Bool :=
  c = ' ' ∨ c = '\t' ∨ c = '\n' ∨ c = '\x0d' ∨ c = '\x0b' ∨ c = '\x0c'

/-- Strip leading and trailing whitespace (Python numeric-literal parsing). -/
def stripWS (cs : List Char) : List Char :=
  ((cs.dropWhile (fun c => pyIsSpace c)).reverse.dropWhile (fun c => pyIsSpace c)).reverse

def isDigitChar (c : Char) : Bool := '0' ≤ c ∧ c ≤ '9'

def digitsToNat (cs : List Char) : Nat :=
  cs.foldl (fun a c => a * 10 + (c.toNat - 48)) 0

/-- A Python `float` whose value is an exact decimal: `num / 10 ^ exp`.
Every float flowing through `korad.py` comes from a decimal literal in the
source or a decimal reply string, and every arithmetic the code performs on
them (`math.isclose` comparisons, `:.3f` formatting) is exact at this
precision, so exact decimal-fraction arithmetic models it faithfully.  The
representation is not normalised; value-level statements go through
`Dec.toRat`. -/
structure Dec where
  num : Int
  exp : Nat
deriving DecidableEq

/-- The rational value of a `Dec`. -/
def Dec.toRat (a : Dec) : ℚ := (a.num : ℚ) / 10 ^ a.exp

/-- Value-level `≤`, by cross-multiplication with the positive denominators. -/
def Dec.le (a b : Dec) : Bool := decide (a.num * 10 ^ b.exp ≤ b.num * 10 ^ a.exp)

/-- Exact difference of two decimal fractions. -/
def Dec.sub (a b : Dec) : Dec := ⟨a.num * 10 ^ b.exp - b.num * 10 ^ a.exp, a.exp + b.exp⟩

/-- Absolute value. -/
def Dec.absVal (a : Dec) : Dec := ⟨|a.num|, a.exp⟩

/-- Value-level maximum. -/
def Dec.maxVal (a b : Dec) : Dec := if Dec.le a b then b else a

/-- Unsigned decimal literal: `digits`, `digits.`, `digits.digits` or
`.digits`, the forms accepted by Python `float` (the replies decoded in this
development are all plain decimals; exponent forms, `inf`/`nan` and digit
underscores are never sent by the modelled device and are not represented). -/
def parseUnsignedDec (cs : List Char) : Option Dec :=
  let ip := cs.takeWhile isDigitChar
  let rest := cs.dropWhile isDigitChar
  match rest with
  | [] => if ip.isEmpty then none else some ⟨(digitsToNat ip : Int), 0⟩
  | '.' :: fr =>
    let fp := fr.takeWhile isDigitChar
    if ¬ (fr.dropWhile isDigitChar).isEmpty then none
    else if ip.isEmpty ∧ fp.isEmpty then none
    else some ⟨(digitsToNat ip * 10 ^ fp.length + digitsToNat fp : Int), fp.length⟩
  | _ => none

/-- Python `float(str)` on decimal literals: optional surrounding whitespace,
optional sign, decimal digits with an optional fractional part. -/
def pyFloat (s : String) : Option Dec :=
  match stripWS s.data with
  | '-' :: r => (parseUnsignedDec r).map (fun d => ⟨-d.num, d.exp⟩)
  | '+' :: r => parseUnsignedDec r
  | r => parseUnsignedDec r

/-- Python `int(str)`: optional surrounding whitespace, optional sign,
decimal digits only. -/
def pyInt (s : String) : Option Int :=
  match stripWS s.data with
  | '-' :: r => if r.isEmpty ∨ ¬ r.all isDigitChar then none else some (-(digitsToNat r : Int))
  | '+' :: r => if r.isEmpty ∨ ¬ r.all isDigitChar then none else some (digitsToNat r : Int)
  | r => if r.isEmpty ∨ ¬ r.all isDigitChar then none else some (digitsToNat r : Int)

/-- `m` rendered as exactly three digits, `0`-padded on the left. -/
def pad3 (m : Nat) : String :=
  (if m < 10 then "00" else if m < 100 then "0" else "") ++ toString m

/-- `round(value * 1000)` for a decimal fraction, as
`⌊(value * 1000) + 1/2⌋ = ⌊(2 * num * 1000 + 10 ^ exp) / (2 * 10 ^ exp)⌋`.
(CPython's `:.3f` rounds ties half-to-even; no value formatted in this file
is a tie, being an exact multiple of `1/1000`.) -/
def Dec.round1000 (a : Dec) : Int :=
  Int.fdiv (2 * (a.num * 1000) + 10 ^ a.exp) (2 * 10 ^ a.exp)

/-- Python `f"{x:.3f}"`: fixed-point rendering with exactly three fractional
digits. -/
def format3 (q : Dec) : String :=
  let n : Int := q.round1000
  let a : Nat := n.natAbs
  (if n < 0 then "-" else "") ++ toString (a / 1000) ++ "." ++ pad3 (a % 1000)

/-- One billionth of the larger magnitude: the `rel_tol * max(abs(a), abs(b))`
term of `math.isclose`, with CPython's default `rel_tol = 1e-9`. -/
def relTerm (a b : Dec) : Dec :=
  ⟨(Dec.maxVal a.absVal b.absVal).num, (Dec.maxVal a.absVal b.absVal).exp + 9⟩

/-- `math.isclose(a, b, abs_tol=absTol)`: CPython keeps the default relative
tolerance `rel_tol = 1e-9`, so the test is
`abs(a - b) <= max(1e-9 * max(abs(a), abs(b)), abs_tol)`
(see `isclose_iff_toRat` below for this formula over `ℚ`). -/
def isclose (a b absTol : Dec) : Bool :=
  Dec.le (Dec.absVal (Dec.sub a b)) (Dec.maxVal (relTerm a b) absTol)

/-- `needle.isPrefixOf`-style check, written out to keep every helper a plain
structural recursion. -/
def beginsWith : List Char → List Char → Bool
  | [], _ => true
  | _ :: _, [] => false
  | a :: as, b :: bs => a = b && beginsWith as bs

/-- Bool test: `needle` occurs as a contiguous substring of `hay`. -/
def strContainsAux (needle : List Char) : List Char → Bool
  | [] => beginsWith needle []
  | c :: cs => beginsWith needle (c :: cs) || strContainsAux needle cs

def strContains (hay needle : String) : Bool := strContainsAux needle.data hay.data

/-- Python string indexing `s[k]`: non-negative indices from the front,
negative indices from the back, `none` where Python raises `IndexError`. -/
def pyIndex (cs : List Char) (k : Int) : Option Char :=
  if 0 ≤ k then cs.get? k.toNat
  else if 0 ≤ (cs.length : Int) + k then cs.get? ((cs.length : Int) + k).toNat
  else none

/-- Python `f"{b:08b}"`: binary digits of `b`, left-padded with `0` to at
least eight characters. -/
def bin8 (b : Nat) : List Char :=
  let ds := Nat.toDigits 2 b
  List.replicate (8 - ds.length) '0' ++ ds

/-- The status string of `get_status` / `enable_output` / `disable_output`:
`f"{b:08b}"[::-1]` — the binary rendering reversed, so position `i` holds
bit `i` (least-significant first) when `b < 256`. -/
def statusStr (b : Nat) : List Char := (bin8 b).reverse

/-! ## `src/korad.py` module-level helpers -/

/-- `_convert_response` (korad.py lines 6–10): best-effort UTF-8 decode with
`strip('\n')`; the bare `except` returns the raw bytes unchanged when the
decode raises. -/
def convert_response (data : List Nat) : Sum (List Nat) String :=
  match utf8Decode data with
  | some cs => Sum.inr (String.mk (pyStrip '\n' cs))
  | none => Sum.inl data

/-- `_split_response` (korad.py lines 13–18): convert, then
`data.split(':')[1]`; the `IndexError` of a colon-free string (and the
`TypeError` of `bytes.split(':')` when the decode fell back to bytes) is
caught by the bare `except`, which returns `data` as it stands at that
point — the decoded string, or the raw bytes respectively. -/
def split_response (data : List Nat) : Sum (List Nat) String :=
  match convert_response data with
  | Sum.inl raw => Sum.inl raw
  | Sum.inr s =>
    match (splitChar ':' s.data).get? 1 with
    | some second => Sum.inr (String.mk second)
    | none => Sum.inr s

/-- `_check_channel` (korad.py lines 21–25): `int(channel)` is the identity
on an `int`; the guard is the chained comparison `1 > channel > 4`,
i.e. `1 > channel and channel > 4`. -/
def check_channel (channel : Int) : Except String Int :=
  if 1 > channel ∧ channel > 4 then Except.error "Channel must be between 1 and 4"
  else Except.ok channel

/-! ## The transport and the `KC3405P` operations

The UDP peer is modelled as a pure reply function over the history of
commands sent so far; `recv` after a command returns that function applied
to the history.  Each client operation takes the device and the trace
`t : List String` of commands already sent and returns the Python result
(`Except String` carrying the message of any exception raised) together
with the extended trace. -/

structure Device where
  respond : List String → List Nat

/-- `KC3405P._send_command` (korad.py 38–41): frames the command as
`f"{cmd}\x0d\x0a"` and sends one datagram; the trace records the unframed
command text. -/
def sendCommand (t : List String) (cmd : String) : List String := t ++ [cmd]

/-- Result of one operation: the value or raised exception, and the trace. -/
abbrev Res (α : Type) := Except String α × List String

/-- A device whose every reply is the fixed byte string `bs`. -/
def constDev (bs : List Nat) : Device := ⟨fun _ => bs⟩

/-- `float(reply)` applied to the result of `_get_response_str`: when the
UTF-8 decode fell back to raw bytes, `float(bytes)` performs the same ASCII
decode and fails on exactly the same inputs, so the bytes case is `none`. -/
def respFloat (r : Sum (List Nat) String) : Option Dec :=
  match r with
  | Sum.inr s => pyFloat s
  | Sum.inl _ => none

/-- `int(reply)` applied to the result of `_get_response_str` (same remark
about the bytes fallback as `respFloat`). -/
def respInt (r : Sum (List Nat) String) : Option Int :=
  match r with
  | Sum.inr s => pyInt s
  | Sum.inl _ => none

/-- `KC3405P.get_voltage` (korad.py 92–96). -/
def get_voltage (d : Device) (channel : Int) (t : List String) : Res Dec :=
  match check_channel channel with
  | .error e => (.error e, t)
  | .ok ch =>
    let t := sendCommand t ("VOUT" ++ toString ch ++ "?")
    match respFloat (convert_response (d.respond t)) with
    | some q => (.ok q, t)
    | none => (.error "ValueError: could not convert string to float", t)

/-- `KC3405P.get_current` (korad.py 98–102). -/
def get_current (d : Device) (channel : Int) (t : List String) : Res Dec :=
  match check_channel channel with
  | .error e => (.error e, t)
  | .ok ch =>
    let t := sendCommand t ("IOUT" ++ toString ch ++ "?")
    match respFloat (convert_response (d.respond t)) with
    | some q => (.ok q, t)
    | none => (.error "ValueError: could not convert string to float", t)

/-- `KC3405P.get_voltage_setting` (korad.py 104–108). -/
def get_voltage_setting (d : Device) (channel : Int) (t : List String) : Res Dec :=
  match check_channel channel with
  | .error e => (.error e, t)
  | .ok ch =>
    let t := sendCommand t ("VSET" ++ toString ch ++ "?")
    match respFloat (convert_response (d.respond t)) with
    | some q => (.ok q, t)
    | none => (.error "ValueError: could not convert string to float", t)

/-- `KC3405P.get_current_setting` (korad.py 110–114). -/
def get_current_setting (d : Device) (channel : Int) (t : List String) : Res Dec :=
  match check_channel channel with
  | .error e => (.error e, t)
  | .ok ch =>
    let t := sendCommand t ("ISET" ++ toString ch ++ "?")
    match respFloat (convert_response (d.respond t)) with
    | some q => (.ok q, t)
    | none => (.error "ValueError: could not convert string to float", t)

/-- `KC3405P.set_voltage` (korad.py 116–124): write `VSET<ch>:<v:.3f>`,
re-read the setpoint, and raise unless `math.isclose(voltage, setting,
abs_tol=1e-2)`. -/
def set_voltage (d : Device) (channel : Int) (voltage : Dec) (t : List String) : Res Unit :=
  match check_channel channel with
  | .error e => (.error e, t)
  | .ok ch =>
    let t := sendCommand t ("VSET" ++ toString ch ++ ":" ++ format3 voltage)
    match get_voltage_setting d ch t with
    | (.error e, t) => (.error e, t)
    | (.ok setting, t) =>
      if ¬ (isclose voltage setting ⟨1, 2⟩ = true) then
        (.error ("Voltage should be close to " ++ format3 voltage ++ "V, but was " ++
          format3 setting ++ "V. Not able to set voltage on channel " ++ toString ch ++ "!"), t)
      else (.ok (), t)

/-- `KC3405P.set_current` (korad.py 126–134).  The first fragment of the
message is a plain string literal in the source (no `f` prefix), so the
text `\x7bvoltage:.3f\x7d` appears verbatim in the raised error. -/
def set_current (d : Device) (channel : Int) (current : Dec) (t : List String) : Res Unit :=
  match check_channel channel with
  | .error e => (.error e, t)
  | .ok ch =>
    let t := sendCommand t ("ISET" ++ toString ch ++ ":" ++ format3 current)
    match get_current_setting d ch t with
    | (.error e, t) => (.error e, t)
    | (.ok setting, t) =>
      if ¬ (isclose current setting ⟨1, 2⟩ = true) then
        (.error ("Current should be close to \x7bvoltage:.3f\x7dA, but was " ++
          format3 setting ++ "A. Not able to set current on channel " ++ toString ch ++ "!"), t)
      else (.ok (), t)

/-- `KC3405P.lock_buttons` (korad.py 136–138). -/
def lock_buttons (t : List String) : Res Unit :=
  (.ok (), sendCommand t "LOCK:1")

/-- `KC3405P._get_status_byte` (korad.py 71–76): reply must be exactly two
bytes; the value is the first byte. -/
def get_status_byte (d : Device) (t : List String) : Res Nat :=
  let t := sendCommand t "STATUS?"
  let response := d.respond t
  if response.length ≠ 2 then (.error "Invalid response received", t)
  else
    match response with
    | b :: _ => (.ok b, t)
    | [] => (.error "Invalid response received", t)

/-- Character `i` of the reversed binary status rendering.  The rendering is
padded to at least eight characters, so positions 0–7 always exist and the
`' '` default of `getD` is never produced. -/
def statusChar (b : Nat) (i : Nat) : Char := (statusStr b).getD i ' '

/-- The dictionary built by `KC3405P.get_status` (korad.py 78–90). -/
structure StatusDict where
  ch1_mode : String
  ch2_mode : String
  ch3_mode : String
  ch4_mode : String
  ch1_output : String
  ch2_output : String
  ch3_output : String
  ch4_output : String
deriving DecidableEq

/-- The pure decoding step of `KC3405P.get_status` (korad.py 79–89), from the
status byte to the dictionary: position `i` of `f"{b:08b}"[::-1]` drives
`chN_mode` (`"cv"` for `'1'`, `"cc"` otherwise) for `i = N - 1`, and
`chN_output` (`"on"` for `'1'`, `"off"` otherwise) for `i = N + 3`. -/
def get_status_dict (b : Nat) : StatusDict :=
  { ch1_mode := if statusChar b 0 = '1' then "cv" else "cc"
    ch2_mode := if statusChar b 1 = '1' then "cv" else "cc"
    ch3_mode := if statusChar b 2 = '1' then "cv" else "cc"
    ch4_mode := if statusChar b 3 = '1' then "cv" else "cc"
    ch1_output := if statusChar b 4 = '1' then "on" else "off"
    ch2_output := if statusChar b 5 = '1' then "on" else "off"
    ch3_output := if statusChar b 6 = '1' then "on" else "off"
    ch4_output := if statusChar b 7 = '1' then "on" else "off" }

/-- `KC3405P.get_status` (korad.py 78–90): status byte from the wire, then
the pure decoding. -/
def get_status (d : Device) (t : List String) : Res StatusDict :=
  match get_status_byte d t with
  | (.error e, t) => (.error e, t)
  | (.ok b, t) => (.ok (get_status_dict b), t)

/-- `KC3405P.enable_output` (korad.py 144–162).  The guard is the chained
comparison `0 > channel > 4`, i.e. `0 > channel and channel > 4`; the
single-channel branch reads `status[3 + channel]`, an `IndexError` when that
position does not exist. -/
def enable_output (d : Device) (channel : Int) (t : List String) : Res Unit :=
  if 0 > channel ∧ channel > 4 then
    (.error "Channel must be between 1 and 4, or 0 for triggering all channels", t)
  else if channel = 0 then
    let t := sendCommand t "OUT1234:1"
    match get_status_byte d t with
    | (.error e, t) => (.error e, t)
    | (.ok b, t) =>
      if ¬ ((statusStr b).drop 4 = ['1', '1', '1', '1']) then
        (.error ("Could not enable all channels! CH1: " ++ String.mk [statusChar b 4] ++
          ", CH2: " ++ String.mk [statusChar b 5] ++ ", CH3: " ++ String.mk [statusChar b 6] ++
          ", CH4: " ++ String.mk [statusChar b 7]), t)
      else (.ok (), t)
  else
    let t := sendCommand t ("OUT" ++ toString channel ++ ":1")
    match get_status_byte d t with
    | (.error e, t) => (.error e, t)
    | (.ok b, t) =>
      match pyIndex (statusStr b) (3 + channel) with
      | none => (.error "IndexError: string index out of range", t)
      | some c =>
        if ¬ (c = '1') then
          (.error ("Could not enable channel " ++ toString channel ++ "!"), t)
        else (.ok (), t)

/-- `KC3405P.disable_output` (korad.py 164–182), mirror of `enable_output`
with state `0`. -/
def disable_output (d : Device) (channel : Int) (t : List String) : Res Unit :=
  if 0 > channel ∧ channel > 4 then
    (.error "Channel must be between 1 and 4, or 0 for triggering all channels", t)
  else if channel = 0 then
    let t := sendCommand t "OUT1234:0"
    match get_status_byte d t with
    | (.error e, t) => (.error e, t)
    | (.ok b, t) =>
      if ¬ ((statusStr b).drop 4 = ['0', '0', '0', '0']) then
        (.error ("Could not disable all channels! CH1: " ++ String.mk [statusChar b 4] ++
          ", CH2: " ++ String.mk [statusChar b 5] ++ ", CH3: " ++ String.mk [statusChar b 6] ++
          ", CH4: " ++ String.mk [statusChar b 7]), t)
      else (.ok (), t)
  else
    let t := sendCommand t ("OUT" ++ toString channel ++ ":0")
    match get_status_byte d t with
    | (.error e, t) => (.error e, t)
    | (.ok b, t) =>
      match pyIndex (statusStr b) (3 + channel) with
      | none => (.error "IndexError: string index out of range", t)
      | some c =>
        if ¬ (c = '0') then
          (.error ("Could not disable channel " ++ toString channel ++ "!"), t)
        else (.ok (), t)

/-- `KC3405P.set_overcurrent_protection` (korad.py 190–197): write
`OCPSET<ch>:<v:.3f>`, then query the *current setpoint* (`ISET<ch>?`, via
`get_current_setting`), and raise when `math.isclose(current, setting,
abs_tol=1e-2)` — i.e. when the two values ARE close. -/
def set_overcurrent_protection (d : Device) (channel : Int) (current : Dec)
    (t : List String) : Res Unit :=
  match check_channel channel with
  | .error e => (.error e, t)
  | .ok ch =>
    let t := sendCommand t ("OCPSET" ++ toString ch ++ ":" ++ format3 current)
    match get_current_setting d ch t with
    | (.error e, t) => (.error e, t)
    | (.ok setting, t) =>
      if isclose current setting ⟨1, 2⟩ = true then
        (.error "Current should be close to setting, not able to set current on device!", t)
      else (.ok (), t)

/-- `KC3405P.set_overvoltage_protection` (korad.py 205–212): write
`OVPSET<ch>:<v:.3f>`, then query the *voltage setpoint* (`VSET<ch>?`, via
`get_voltage_setting`), and raise when the values ARE close. -/
def set_overvoltage_protection (d : Device) (channel : Int) (voltage : Dec)
    (t : List String) : Res Unit :=
  match check_channel channel with
  | .error e => (.error e, t)
  | .ok ch =>
    let t := sendCommand t ("OVPSET" ++ toString ch ++ ":" ++ format3 voltage)
    match get_voltage_setting d ch t with
    | (.error e, t) => (.error e, t)
    | (.ok setting, t) =>
      if isclose voltage setting ⟨1, 2⟩ = true then
        (.error "Voltage should be close to setting, not able to set voltage on device!", t)
      else (.ok (), t)

/-- `KC3405P.get_ocp_status` (korad.py 214–218): `bool(int(reply))`. -/
def get_ocp_status (d : Device) (channel : Int) (t : List String) : Res Bool :=
  match check_channel channel with
  | .error e => (.error e, t)
  | .ok ch =>
    let t := sendCommand t ("OCP" ++ toString ch ++ "?")
    match respInt (convert_response (d.respond t)) with
    | some n => (.ok (n ≠ 0), t)
    | none => (.error "ValueError: invalid literal for int() with base 10", t)

/-- `KC3405P.enable_overcurrent_protection` (korad.py 220–226). -/
def enable_overcurrent_protection (d : Device) (channel : Int) (t : List String) : Res Unit :=
  match check_channel channel with
  | .error e => (.error e, t)
  | .ok ch =>
    let t := sendCommand t ("OCP" ++ toString ch ++ ":1")
    match get_ocp_status d ch t with
    | (.error e, t) => (.error e, t)
    | (.ok st, t) =>
      if ¬ (st = true) then
        (.error ("Could not enable overcurrent protection on channel " ++ toString ch ++ "!"), t)
      else (.ok (), t)

/-- `KC3405P.disable_overcurrent_protection` (korad.py 228–234). -/
def disable_overcurrent_protection (d : Device) (channel : Int) (t : List String) : Res Unit :=
  match check_channel channel with
  | .error e => (.error e, t)
  | .ok ch =>
    let t := sendCommand t ("OCP" ++ toString ch ++ ":0")
    match get_ocp_status d ch t with
    | (.error e, t) => (.error e, t)
    | (.ok st, t) =>
      if st = true then
        (.error ("Could not disable overcurrent protection on channel " ++ toString ch ++ "!"), t)
      else (.ok (), t)

/-- `KC3405P.get_ovp_status` (korad.py 236–240). -/
def get_ovp_status (d : Device) (channel : Int) (t : List String) : Res Bool :=
  match check_channel channel with
  | .error e => (.error e, t)
  | .ok ch =>
    let t := sendCommand t ("OVP" ++ toString ch ++ "?")
    match respInt (convert_response (d.respond t)) with
    | some n => (.ok (n ≠ 0), t)
    | none => (.error "ValueError: invalid literal for int() with base 10", t)

/-- `KC3405P.enable_overvoltage_protection` (korad.py 242–248). -/
def enable_overvoltage_protection (d : Device) (channel : Int) (t : List String) : Res Unit :=
  match check_channel channel with
  | .error e => (.error e, t)
  | .ok ch =>
    let t := sendCommand t ("OVP" ++ toString ch ++ ":1")
    match get_ovp_status d ch t with
    | (.error e, t) => (.error e, t)
    | (.ok st, t) =>
      if ¬ (st = true) then
        (.error ("Could not enable overvoltage protection on channel " ++ toString ch ++ "!"), t)
      else (.ok (), t)

/-- `KC3405P.disable_overvoltage_protection` (korad.py 250–256). -/
def disable_overvoltage_protection (d : Device) (channel : Int) (t : List String) : Res Unit :=
  match check_channel channel with
  | .error e => (.error e, t)
  | .ok ch =>
    let t := sendCommand t ("OVP" ++ toString ch ++ ":0")
    match get_ovp_status d ch t with
    | (.error e, t) => (.error e, t)
    | (.ok st, t) =>
      if st = true then
        (.error ("Could not disable overvoltage protection on channel " ++ toString ch ++ "!"), t)
      else (.ok (), t)

/-- `KC3405P.enable_external_trigger` (korad.py 258–269): guard (the same
never-true chained comparison), then either the `for i in range(1, 5)` loop
of sends for the sentinel `0`, or one send; nothing is read back and no
verification occurs. -/
def enable_external_trigger (_d : Device) (channel : Int) (t : List String) : Res Unit :=
  if 0 > channel ∧ channel > 4 then
    (.error "Channel must be between 1 and 4, or 0 for enabling external triggers for all channels", t)
  else if channel = 0 then
    (.ok (), ([1, 2, 3, 4] : List Int).foldl
      (fun t i => sendCommand t ("EXIT" ++ toString i ++ ":1")) t)
  else
    (.ok (), sendCommand t ("EXIT" ++ toString channel ++ ":1"))

/-- `KC3405P.disable_external_trigger` (korad.py 271–282). -/
def disable_external_trigger (_d : Device) (channel : Int) (t : List String) : Res Unit :=
  if 0 > channel ∧ channel > 4 then
    (.error "Channel must be between 1 and 4, or 0 for disabling external triggers for all channels", t)
  else if channel = 0 then
    (.ok (), ([1, 2, 3, 4] : List Int).foldl
      (fun t i => sendCommand t ("EXIT" ++ toString i ++ ":0")) t)
  else
    (.ok (), sendCommand t ("EXIT" ++ toString channel ++ ":0"))

/-- `KC3405P.enable_external_switch` (korad.py 284–295). -/
def enable_external_switch (_d : Device) (channel : Int) (t : List String) : Res Unit :=
  if 0 > channel ∧ channel > 4 then
    (.error "Channel must be between 1 and 4, or 0 for enabling external switches for all channels", t)
  else if channel = 0 then
    (.ok (), ([1, 2, 3, 4] : List Int).foldl
      (fun t i => sendCommand t ("EXON" ++ toString i ++ ":1")) t)
  else
    (.ok (), sendCommand t ("EXON" ++ toString channel ++ ":1"))

/-- `KC3405P.disable_external_switch` (korad.py 297–308). -/
def disable_external_switch (_d : Device) (channel : Int) (t : List String) : Res Unit :=
  if 0 > channel ∧ channel > 4 then
    (.error "Channel must be between 1 and 4, or 0 for disabling external switches for all channels", t)
  else if channel = 0 then
    (.ok (), ([1, 2, 3, 4] : List Int).foldl
      (fun t i => sendCommand t ("EXON" ++ toString i ++ ":0")) t)
  else
    (.ok (), sendCommand t ("EXON" ++ toString channel ++ ":0"))

/-- `KC3405P.enable_external_compensation` (korad.py 310–320). -/
def enable_external_compensation (_d : Device) (channel : Int) (t : List String) : Res Unit :=
  if 0 > channel ∧ channel > 4 then
    (.error "Channel must be between 1 and 4, or 0 for enabling external compensation for all channels", t)
  else if channel = 0 then
    (.ok (), ([1, 2, 3, 4] : List Int).foldl
      (fun t i => sendCommand t ("COMP" ++ toString i ++ ":1")) t)
  else
    (.ok (), sendCommand t ("COMP" ++ toString channel ++ ":1"))

/-- `KC3405P.disable_external_compensation` (korad.py 322–332). -/
def disable_external_compensation (_d : Device) (channel : Int) (t : List String) : Res Unit :=
  if 0 > channel ∧ channel > 4 then
    (.error "Channel must be between 1 and 4, or 0 for disabling external compensation for all channels", t)
  else if channel = 0 then
    (.ok (), ([1, 2, 3, 4] : List Int).foldl
      (fun t i => sendCommand t ("COMP" ++ toString i ++ ":0")) t)
  else
    (.ok (), sendCommand t ("COMP" ++ toString channel ++ ":0"))

/-- Sequencing of statements in a Python method body: an exception raised by
the first step propagates, skipping the rest. -/
def seqRes {α β : Type} (x : Res α) (f : α → List String → Res β) : Res β :=
  match x with
  | (.error e, t) => (.error e, t)
  | (.ok a, t) => f a t

/-- Class attributes `_default_voltage` / `_default_current` /
`_default_ocp` / `_default_ovp` (korad.py 29–32), as the exact decimals of
the source literals `0.0`, `0.0`, `5.1`, `31.0`. -/
def default_voltage : Dec := ⟨0, 1⟩
def default_current : Dec := ⟨0, 1⟩
def default_ocp : Dec := ⟨51, 1⟩
def default_ovp : Dec := ⟨310, 1⟩

/-- The body of the `for channel in range(1, 5)` loop of
`KC3405P.reset_settings` (korad.py 368–374) for one channel. -/
def reset_channel (d : Device) (ch : Int) (t : List String) : Res Unit :=
  seqRes (set_overcurrent_protection d ch default_ocp t) fun _ t =>
  seqRes (enable_overcurrent_protection d ch t) fun _ t =>
  seqRes (set_overvoltage_protection d ch default_ovp t) fun _ t =>
  seqRes (enable_overvoltage_protection d ch t) fun _ t =>
  seqRes (set_voltage d ch default_voltage t) fun _ t =>
  set_current d ch default_current t

/-- `KC3405P.reset_settings` (korad.py 362–374): lock the buttons, disable
output / external switch / external trigger / external compensation with the
all-channel sentinel, then run the per-channel loop for channels 1–4 in
ascending order; a raise anywhere propagates and aborts the rest. -/
def reset_settings (d : Device) (t : List String) : Res Unit :=
  seqRes (lock_buttons t) fun _ t =>
  seqRes (disable_output d 0 t) fun _ t =>
  seqRes (disable_external_switch d 0 t) fun _ t =>
  seqRes (disable_external_trigger d 0 t) fun _ t =>
  seqRes (disable_external_compensation d 0 t) fun _ t =>
  ([1, 2, 3, 4] : List Int).foldl (fun acc ch => seqRes acc fun _ t => reset_channel d ch t)
    (.ok (), t)

/-! ## Concrete simulated devices used by the theorems -/

/-- The most recent command of a trace (the one a reply answers). -/
def lastCmd : List String → String
  | [] => ""
  | [c] => c
  | _ :: rest => lastCmd rest

/-- Reply function of a device on which every step of `reset_settings`
verifies: the status reply is the two bytes `[0, 10]` (status byte `0`:
all outputs off), every OCP/OVP flag query reads `"1"`, and every other
query reads `"0.000"`. -/
def confirmReply (c : String) : List Nat :=
  if c = "STATUS?" then [0, 10]
  else if c = "OCP1?" ∨ c = "OCP2?" ∨ c = "OCP3?" ∨ c = "OCP4?" ∨
      c = "OVP1?" ∨ c = "OVP2?" ∨ c = "OVP3?" ∨ c = "OVP4?" then asciiBytes "1"
  else asciiBytes "0.000"

def confirmDev : Device := ⟨fun t => confirmReply (lastCmd t)⟩

/-- Same device, except that the OCP flag of channel 2 reads back `"0"`:
the enable-OCP verification on channel 2 fails. -/
def failOcp2Reply (c : String) : List Nat :=
  if c = "OCP2?" then asciiBytes "0" else confirmReply c

def failOcp2Dev : Device := ⟨fun t => failOcp2Reply (lastCmd t)⟩

/-- A device whose every reply reads `"0"`: every boolean flag reads as
disabled. -/
def offDev : Device := constDev (asciiBytes "0")

/-! # Theorems

First the lemmas connecting the decimal-fraction operations to the
rational-number formula of `math.isclose`, then general helper lemmas,
then one theorem per claim of the specification review. -/

theorem Dec.le_iff_toRat (a b : Dec) : Dec.le a b = true ↔ a.toRat ≤ b.toRat := by
  have h1 : (0 : ℚ) < 10 ^ a.exp := by positivity
  have h2 : (0 : ℚ) < 10 ^ b.exp := by positivity
  rw [Dec.le, decide_eq_true_iff, Dec.toRat, Dec.toRat, div_le_div_iff₀ h1 h2]
  constructor <;> intro h <;> exact_mod_cast h

theorem Dec.toRat_sub (a b : Dec) : (Dec.sub a b).toRat = a.toRat - b.toRat := by
  have h1 : (10 : ℚ) ^ a.exp ≠ 0 := by positivity
  have h2 : (10 : ℚ) ^ b.exp ≠ 0 := by positivity
  rw [Dec.sub, Dec.toRat, Dec.toRat, Dec.toRat]
  push_cast
  field_simp
  ring

theorem Dec.toRat_absVal (a : Dec) : (Dec.absVal a).toRat = |a.toRat| := by
  rw [Dec.absVal, Dec.toRat, Dec.toRat, abs_div]
  push_cast
  congr 1
  rw [abs_pow, abs_of_pos (by norm_num : (0 : ℚ) < 10)]

theorem Dec.toRat_maxVal (a b : Dec) : (Dec.maxVal a b).toRat = max a.toRat b.toRat := by
  rw [Dec.maxVal]
  by_cases h : Dec.le a b = true
  · rw [if_pos h, max_eq_right ((Dec.le_iff_toRat a b).mp h)]
  · rw [if_neg h]
    have : ¬ a.toRat ≤ b.toRat := fun hle => h ((Dec.le_iff_toRat a b).mpr hle)
    rw [max_eq_left (le_of_not_le this)]

theorem relTerm_toRat (a b : Dec) :
    (relTerm a b).toRat = (1 / 1000000000) * max |a.toRat| |b.toRat| := by
  have hm : (Dec.maxVal a.absVal b.absVal).toRat = max |a.toRat| |b.toRat| := by
    rw [Dec.toRat_maxVal, Dec.toRat_absVal, Dec.toRat_absVal]
  rw [Dec.toRat] at hm
  rw [relTerm, Dec.toRat, pow_add, ← div_div, hm, div_eq_mul_inv, mul_comm]
  norm_num

/-- `isclose a b t` computes exactly the documented test of
`math.isclose(a, b, abs_tol=t)` over the rational values. -/
theorem isclose_iff_toRat (a b t : Dec) :
    isclose a b t = true ↔
      |a.toRat - b.toRat| ≤ max ((1 / 1000000000) * max |a.toRat| |b.toRat|) t.toRat := by
  rw [isclose, Dec.le_iff_toRat, Dec.toRat_absVal, Dec.toRat_sub, Dec.toRat_maxVal,
    relTerm_toRat]

/-- The chained guard `1 > channel > 4` of `_check_channel` is never
satisfied, so validation accepts every integer unchanged. -/
theorem check_channel_eq (z : Int) : check_channel z = Except.ok z := by
  have h : ¬ ((1 : Int) > z ∧ z > 4) := by omega
  simp [check_channel, h]

/-- C1: the claim says `_check_channel` returns channels 1–4 unchanged and
fails with `InvalidChannel` for every other integer, before any wire
traffic.  The code contradicts its own error message: the chained guard
`1 > channel > 4` is never true, so every integer is returned unchanged —
channel 5 included — and `get_voltage(5)` puts `VOUT5?` on the wire. -/
theorem c1_check_channel_accepts_every_integer :
    (∀ z : Int, check_channel z = Except.ok z) ∧
    get_voltage (constDev (asciiBytes "1.000")) 5 [] = (Except.ok ⟨1000, 3⟩, ["VOUT5?"]) :=
  ⟨check_channel_eq, rfl⟩

/-- C3 counterexample: the claim says every external-trigger (and switch and
compensation) mutation re-reads the relevant flag after the command and
raises `VerificationFailed` on disagreement.  Against a device on which
every flag query reads `"0"` (disabled), `enable_external_trigger(1)`
succeeds, and its complete wire trace is the single command `EXIT1:1` —
nothing is re-read and nothing is raised. -/
theorem c3_external_trigger_no_reread_cex :
    enable_external_trigger offDev 1 [] = (Except.ok (), ["EXIT1:1"]) := rfl

/-- C3 as amended: the six external-trigger/switch/compensation mutations
send exactly their mutation command(s) — four commands in ascending channel
order for the sentinel `0`, one command otherwise — read nothing back,
perform no verification, and never raise, for every channel argument and
every device. -/
theorem c3_external_ops_send_only (d : Device) (ch : Int) :
    enable_external_trigger d ch [] = (Except.ok (),
      if ch = 0 then ["EXIT1:1", "EXIT2:1", "EXIT3:1", "EXIT4:1"]
      else ["EXIT" ++ toString ch ++ ":1"]) ∧
    disable_external_trigger d ch [] = (Except.ok (),
      if ch = 0 then ["EXIT1:0", "EXIT2:0", "EXIT3:0", "EXIT4:0"]
      else ["EXIT" ++ toString ch ++ ":0"]) ∧
    enable_external_switch d ch [] = (Except.ok (),
      if ch = 0 then ["EXON1:1", "EXON2:1", "EXON3:1", "EXON4:1"]
      else ["EXON" ++ toString ch ++ ":1"]) ∧
    disable_external_switch d ch [] = (Except.ok (),
      if ch = 0 then ["EXON1:0", "EXON2:0", "EXON3:0", "EXON4:0"]
      else ["EXON" ++ toString ch ++ ":0"]) ∧
    enable_external_compensation d ch [] = (Except.ok (),
      if ch = 0 then ["COMP1:1", "COMP2:1", "COMP3:1", "COMP4:1"]
      else ["COMP" ++ toString ch ++ ":1"]) ∧
    disable_external_compensation d ch [] = (Except.ok (),
      if ch = 0 then ["COMP1:0", "COMP2:0", "COMP3:0", "COMP4:0"]
      else ["COMP" ++ toString ch ++ ":0"]) := by
  by_cases hch : ch = 0
  · subst hch
    exact ⟨rfl, rfl, rfl, rfl, rfl, rfl⟩
  · have hg : ¬ ((0 : Int) > ch ∧ ch > 4) := by omega
    refine ⟨?_, ?_, ?_, ?_, ?_, ?_⟩ <;>
      simp [enable_external_trigger, disable_external_trigger, enable_external_switch,
        disable_external_switch, enable_external_compensation,
        disable_external_compensation, sendCommand, hg, hch]

/-- Splitting a list free of the separator yields the single whole segment. -/
theorem splitChar_not_mem (sep : Char) (cs : List Char) (h : sep ∉ cs) :
    splitChar sep cs = [cs] := by
  induction cs with
  | nil => rfl
  | cons c cs ih =>
    have hc : ¬ c = sep := fun hc => h (by simp [hc])
    have hm : sep ∉ cs := fun hm => h (List.mem_cons_of_mem c hm)
    simp [splitChar, hc, ih hm]

/-- The first segment produced by `splitChar` is the longest
separator-free leading run. -/
theorem splitChar_head_take (sep : Char) (cs : List Char) :
    ∃ rs, splitChar sep cs = cs.takeWhile (· ≠ sep) :: rs := by
  induction cs with
  | nil => exact ⟨[], rfl⟩
  | cons c cs ih =>
    by_cases hc : c = sep
    · subst hc
      exact ⟨splitChar c cs, by simp [splitChar]⟩
    · obtain ⟨rs, hrs⟩ := ih
      exact ⟨rs, by simp [splitChar, hc, hrs]⟩

/-- Unfolding of `splitChar` at a list containing the separator: the head
segment, then the split of what follows the first separator. -/
theorem splitChar_of_mem (sep : Char) (cs : List Char) (h : sep ∈ cs) :
    splitChar sep cs =
      cs.takeWhile (· ≠ sep) :: splitChar sep ((cs.dropWhile (· ≠ sep)).tail) := by
  induction cs with
  | nil => cases h
  | cons c cs ih =>
    by_cases hc : c = sep
    · subst hc
      simp [splitChar]
    · have hm : sep ∈ cs := by
        cases List.mem_cons.mp h with
        | inl he => exact absurd he.symm hc
        | inr hm => exact hm
      simp [splitChar, hc, ih hm]

/-- C2 counterexample: the claim says labeled-reply decoding returns the
entire remainder after the first colon; `split(':')[1]` returns only the
field between the first and the second colon: on `"A:B:C"` the result is
`"B"`, not `"B:C"`. -/
theorem c2_split_response_cex :
    split_response (asciiBytes "A:B:C") = Sum.inr "B" ∧
    split_response (asciiBytes "A:B:C") ≠ Sum.inr "B:C" :=
  ⟨rfl, by decide⟩

/-- C2 as amended: for every reply decoding to a string with at least one
colon, `_split_response` returns the segment strictly between the first and
the second colon (the entire remainder only when the string has exactly one
colon); for a string with no colon it returns the decoded text unchanged. -/
theorem c2_split_response_second_field (data : List Nat) (s : String)
    (h : convert_response data = Sum.inr s) :
    (':' ∉ s.data → split_response data = Sum.inr s) ∧
    (':' ∈ s.data → split_response data = Sum.inr
      (String.mk (((s.data.dropWhile (· ≠ ':')).tail).takeWhile (· ≠ ':')))) := by
  constructor
  · intro hn
    simp only [split_response, h, splitChar_not_mem ':' s.data hn]
    rfl
  · intro hm
    obtain ⟨rs, hrs⟩ := splitChar_head_take ':' ((s.data.dropWhile (· ≠ ':')).tail)
    simp only [split_response, h, splitChar_of_mem ':' s.data hm, hrs]
    rfl

/-- C2 witness: the specification's own examples — `"IOUT1:1.234"` yields
`"1.234"` (one colon, so the second field is the remainder), and the
colon-free `"1.234"` is returned unchanged. -/
theorem c2_split_response_second_field_witness :
    split_response (asciiBytes "IOUT1:1.234") = Sum.inr "1.234" ∧
    split_response (asciiBytes "1.234") = Sum.inr "1.234" :=
  ⟨((c2_split_response_second_field (asciiBytes "IOUT1:1.234") "IOUT1:1.234" rfl).2
      (by decide)).trans (by decide),
   (c2_split_response_second_field (asciiBytes "1.234") "1.234" rfl).1 (by decide)⟩

/-- The element at the head of `dropWhile p` fails `p`. -/
theorem head_dropWhile_false {α : Type} (p : α → Bool) (l : List α) (a : α)
    (h : (l.dropWhile p).head? = some a) : p a = false := by
  induction l with
  | nil => simp [List.dropWhile] at h
  | cons x xs ih =>
    rw [List.dropWhile_cons] at h
    by_cases hp : p x = true
    · rw [if_pos hp] at h
      exact ih h
    · rw [if_neg hp] at h
      simp only [List.head?_cons, Option.some.injEq] at h
      subst h
      exact Bool.not_eq_true _ |>.mp hp

/-- `dropWhile` keeps the last element when it keeps anything at all. -/
theorem getLast?_dropWhile {α : Type} (p : α → Bool) (l : List α) :
    l.dropWhile p = [] ∨ (l.dropWhile p).getLast? = l.getLast? := by
  induction l with
  | nil => exact Or.inl rfl
  | cons x xs ih =>
    rw [List.dropWhile_cons]
    by_cases hp : p x = true
    · rw [if_pos hp]
      cases xs with
      | nil => exact Or.inl rfl
      | cons y ys =>
        cases ih with
        | inl he => exact Or.inl he
        | inr hl => exact Or.inr (by rw [List.getLast?_cons_cons]; exact hl)
    · rw [if_neg hp]
      exact Or.inr rfl

/-- C9 counterexample: the claim says decoding trims the trailing
carriage-return/line-feed pair; `strip('\n')` removes only line feeds, so
the carriage return survives: the bytes of `"1.234\x0d\x0a"` decode to
`"1.234\x0d"`, not to `"1.234"`. -/
theorem c9_convert_response_cex :
    convert_response (asciiBytes "1.234\x0d\n") = Sum.inr "1.234\x0d" ∧
    convert_response (asciiBytes "1.234\x0d\n") ≠ Sum.inr "1.234" :=
  ⟨rfl, by decide⟩

/-- C9 as amended: reply decoding is total — on valid UTF-8 it returns the
text with every leading and trailing line-feed character stripped (the
result neither starts nor ends with a line feed, but a carriage return of a
CR/LF terminator survives), and on invalid UTF-8 it returns the raw bytes
unmodified. -/
theorem c9_convert_response_total (data : List Nat) :
    (utf8Decode data = none → convert_response data = Sum.inl data) ∧
    (∀ cs, utf8Decode data = some cs →
      convert_response data = Sum.inr (String.mk (pyStrip '\n' cs)) ∧
      (pyStrip '\n' cs).head? ≠ some '\n' ∧
      (pyStrip '\n' cs).getLast? ≠ some '\n') := by
  constructor
  · intro h
    simp only [convert_response, h]
  · intro cs h
    refine ⟨by simp only [convert_response, h], ?_, ?_⟩
    · rw [pyStrip, List.head?_reverse]
      intro hcon
      rcases getLast?_dropWhile (· = '\n') (List.dropWhile (· = '\n') cs).reverse with he | hl
      · rw [he] at hcon
        simp at hcon
      · rw [hl, List.getLast?_reverse] at hcon
        have hf := head_dropWhile_false (· = '\n') cs '\n' hcon
        simp at hf
    · rw [pyStrip, List.getLast?_reverse]
      intro hcon
      have hf := head_dropWhile_false (· = '\n') (List.dropWhile (· = '\n') cs).reverse '\n' hcon
      simp at hf

/-- C9 witness: the invalid byte `255` is passed through unchanged, and the
valid bytes `[10, 88, 10]` (`"\x0aX\x0a"`) decode and strip to `"X"`. -/
theorem c9_convert_response_total_witness :
    convert_response [255] = Sum.inl [255] ∧ convert_response [10, 88, 10] = Sum.inr "X" :=
  ⟨(c9_convert_response_total [255]).1 (by decide),
   ((c9_convert_response_total [10, 88, 10]).2 ['\n', 'X', '\n'] (by decide)).1.trans (by decide)⟩

/-- C5: the claim says a failed set-and-verify reports both the intended and
the observed value.  `set_voltage` does; `set_current` does not: its first
message fragment lacks the `f` prefix in the source, so the literal text
`\x7bvoltage:.3f\x7d` is raised instead of the intended current.  Against a
device whose setpoint reads `2.000`, `set_current(1, 1.0)` raises a message
that contains the observed `2.000` and the verbatim placeholder but not the
intended `1.000`, while `set_voltage(1, 1.0)` reports both values. -/
theorem c5_set_current_error_omits_intended_value :
    set_current (constDev (asciiBytes "2.000")) 1 ⟨1, 0⟩ [] =
      (Except.error "Current should be close to \x7bvoltage:.3f\x7dA, but was 2.000A. Not able to set current on channel 1!",
        ["ISET1:1.000", "ISET1?"]) ∧
    strContains "Current should be close to \x7bvoltage:.3f\x7dA, but was 2.000A. Not able to set current on channel 1!" "1.000" = false ∧
    strContains "Current should be close to \x7bvoltage:.3f\x7dA, but was 2.000A. Not able to set current on channel 1!" "\x7bvoltage:.3f\x7d" = true ∧
    strContains "Current should be close to \x7bvoltage:.3f\x7dA, but was 2.000A. Not able to set current on channel 1!" "2.000" = true ∧
    set_voltage (constDev (asciiBytes "2.000")) 1 ⟨1, 0⟩ [] =
      (Except.error "Voltage should be close to 1.000V, but was 2.000V. Not able to set voltage on channel 1!",
        ["VSET1:1.000", "VSET1?"]) ∧
    strContains "Voltage should be close to 1.000V, but was 2.000V. Not able to set voltage on channel 1!" "1.000" = true ∧
    strContains "Voltage should be close to 1.000V, but was 2.000V. Not able to set voltage on channel 1!" "2.000" = true :=
  ⟨rfl, by decide, by decide, by decide, rfl, by decide, by decide⟩

/-- C7: for every status byte value 0–255, the decoding of `get_status`
maps position `i` of the reversed binary rendering — bit `i`,
least-significant first — so that bits 0–3 give the modes of channels 1–4
(`"cv"` when the bit is 1, `"cc"` when 0) and bits 4–7 give the output
states of channels 1–4 (`"on"` when 1, `"off"` when 0). -/
theorem c7_status_byte_decoding (b : Nat) (h : b < 256) :
    get_status_dict b =
      { ch1_mode := if b.testBit 0 then "cv" else "cc"
        ch2_mode := if b.testBit 1 then "cv" else "cc"
        ch3_mode := if b.testBit 2 then "cv" else "cc"
        ch4_mode := if b.testBit 3 then "cv" else "cc"
        ch1_output := if b.testBit 4 then "on" else "off"
        ch2_output := if b.testBit 5 then "on" else "off"
        ch3_output := if b.testBit 6 then "on" else "off"
        ch4_output := if b.testBit 7 then "on" else "off" } := by
  revert h
  revert b
  set_option maxRecDepth 20000 in decide

/-- C7 witness: byte `0b00010001 = 17` decodes to channel 1 in
constant-voltage mode with output on, channels 2–4 in constant-current
mode with output off. -/
theorem c7_status_byte_decoding_witness :
    get_status_dict 17 = ⟨"cv", "cc", "cc", "cc", "on", "off", "off", "off"⟩ :=
  (c7_status_byte_decoding 17 (by decide)).trans (by decide)

/-- C4: the protection-threshold writes verify against the setpoint of the
same polarity — `set_overcurrent_protection` writes `OCPSET<ch>` but queries
`ISET<ch>?`, `set_overvoltage_protection` writes `OVPSET<ch>` but queries
`VSET<ch>?` — and raise exactly when the written threshold and that setpoint
ARE close (`math.isclose` with `abs_tol=1e-2`), succeeding when they
differ. -/
theorem c4_protection_writes_inverted_check (bs : List Nat) (q v : Dec) (ch : Int)
    (h : respFloat (convert_response bs) = some q) :
    set_overcurrent_protection (constDev bs) ch v [] =
      ((if isclose v q ⟨1, 2⟩ = true then
          Except.error "Current should be close to setting, not able to set current on device!"
        else Except.ok ()),
        ["OCPSET" ++ toString ch ++ ":" ++ format3 v, "ISET" ++ toString ch ++ "?"]) ∧
    set_overvoltage_protection (constDev bs) ch v [] =
      ((if isclose v q ⟨1, 2⟩ = true then
          Except.error "Voltage should be close to setting, not able to set voltage on device!"
        else Except.ok ()),
        ["OVPSET" ++ toString ch ++ ":" ++ format3 v, "VSET" ++ toString ch ++ "?"]) := by
  constructor <;>
  · simp only [set_overcurrent_protection, set_overvoltage_protection, check_channel_eq,
      get_current_setting, get_voltage_setting, sendCommand, constDev, h]
    by_cases hc : isclose v q ⟨1, 2⟩ = true <;> simp [hc]

/-- C4 witness: on channel 1 with threshold 5.1, a setpoint reading `0.000`
(far from the threshold) lets the write succeed, while a setpoint reading
`5.100` (close to it) makes it raise. -/
theorem c4_protection_writes_inverted_check_witness :
    set_overcurrent_protection (constDev (asciiBytes "0.000")) 1 ⟨51, 1⟩ [] =
      (Except.ok (), ["OCPSET1:5.100", "ISET1?"]) ∧
    set_overvoltage_protection (constDev (asciiBytes "5.100")) 1 ⟨51, 1⟩ [] =
      (Except.error "Voltage should be close to setting, not able to set voltage on device!",
        ["OVPSET1:5.100", "VSET1?"]) :=
  ⟨(c4_protection_writes_inverted_check (asciiBytes "0.000") ⟨0, 3⟩ ⟨51, 1⟩ 1 (by decide)).1,
   (c4_protection_writes_inverted_check (asciiBytes "5.100") ⟨5100, 3⟩ ⟨51, 1⟩ 1 (by decide)).2⟩

/-- C6 counterexample: the claim says a deviation beyond the 0.01 tolerance
fails; with intended `20000000.0` and observed reply `"20000000.020"` the
difference is `1/50 > 1/100`, yet `set_voltage` succeeds: `math.isclose`
keeps its default relative tolerance of `1e-9`, and one billionth of the
larger magnitude (`0.02000000002`) absorbs the deviation. -/
theorem c6_set_voltage_reltol_cex :
    set_voltage (constDev (asciiBytes "20000000.020")) 1 ⟨20000000, 0⟩ [] =
      (Except.ok (), ["VSET1:20000000.000", "VSET1?"]) ∧
    respFloat (convert_response (asciiBytes "20000000.020")) = some ⟨20000000020, 3⟩ ∧
    ¬ (|Dec.toRat ⟨20000000, 0⟩ - Dec.toRat ⟨20000000020, 3⟩| ≤ 1 / 100) := by
  refine ⟨rfl, rfl, ?_⟩
  have hd : Dec.toRat ⟨20000000, 0⟩ - Dec.toRat ⟨20000000020, 3⟩ = -(1 / 50) := by
    rw [Dec.toRat, Dec.toRat]
    norm_num
  rw [hd, abs_neg, abs_of_pos (by norm_num : (0 : ℚ) < 1 / 50)]
  norm_num

/-- C6 as amended: for the set-and-verify of `set_voltage` (tolerance 0.01),
a difference of at most the tolerance succeeds, and a difference exceeding
both the tolerance and `math.isclose`'s default relative allowance of one
billionth of the larger magnitude fails, reporting both the intended and the
observed value.  Via `Dec.le_iff_toRat` / `relTerm_toRat`, the first
hypothesis reads `|intended - observed| ≤ 1/100` and the second reads
`|intended - observed| > max((1/10^9)·max(|intended|, |observed|), 1/100)`. -/
theorem c6_set_voltage_tolerance (bs : List Nat) (q v : Dec) (ch : Int)
    (h : respFloat (convert_response bs) = some q) :
    (Dec.le (Dec.absVal (Dec.sub v q)) ⟨1, 2⟩ = true →
      set_voltage (constDev bs) ch v [] = (Except.ok (),
        ["VSET" ++ toString ch ++ ":" ++ format3 v, "VSET" ++ toString ch ++ "?"])) ∧
    (Dec.le (Dec.absVal (Dec.sub v q)) (Dec.maxVal (relTerm v q) ⟨1, 2⟩) = false →
      set_voltage (constDev bs) ch v [] = (Except.error
        ("Voltage should be close to " ++ format3 v ++ "V, but was " ++ format3 q ++
          "V. Not able to set voltage on channel " ++ toString ch ++ "!"),
        ["VSET" ++ toString ch ++ ":" ++ format3 v, "VSET" ++ toString ch ++ "?"])) := by
  have hshape : set_voltage (constDev bs) ch v [] =
      ((if isclose v q ⟨1, 2⟩ = true then Except.ok () else Except.error
        ("Voltage should be close to " ++ format3 v ++ "V, but was " ++ format3 q ++
          "V. Not able to set voltage on channel " ++ toString ch ++ "!")),
        ["VSET" ++ toString ch ++ ":" ++ format3 v, "VSET" ++ toString ch ++ "?"]) := by
    simp only [set_voltage, check_channel_eq, get_voltage_setting, sendCommand, constDev, h]
    by_cases hc : isclose v q ⟨1, 2⟩ = true <;> simp [hc]
  constructor
  · intro hc
    have hiso : isclose v q ⟨1, 2⟩ = true := by
      rw [isclose, Dec.le_iff_toRat]
      calc (Dec.absVal (Dec.sub v q)).toRat
          ≤ (⟨1, 2⟩ : Dec).toRat := (Dec.le_iff_toRat _ _).mp hc
        _ ≤ (Dec.maxVal (relTerm v q) ⟨1, 2⟩).toRat := by
            rw [Dec.toRat_maxVal]
            exact le_max_right _ _
    rw [hshape, if_pos hiso]
  · intro hc
    have hiso : ¬ (isclose v q ⟨1, 2⟩ = true) := by
      rw [isclose, hc]
      exact Bool.false_ne_true
    rw [hshape, if_neg hiso]

/-- C6 witness: the specification's own example — intended 5.000 with
observed 5.005 succeeds, intended 5.000 with observed 5.02 fails and the
message carries both values. -/
theorem c6_set_voltage_tolerance_witness :
    set_voltage (constDev (asciiBytes "5.005")) 1 ⟨5, 0⟩ [] =
      (Except.ok (), ["VSET1:5.000", "VSET1?"]) ∧
    set_voltage (constDev (asciiBytes "5.02")) 1 ⟨5, 0⟩ [] =
      (Except.error "Voltage should be close to 5.000V, but was 5.020V. Not able to set voltage on channel 1!",
        ["VSET1:5.000", "VSET1?"]) :=
  ⟨(c6_set_voltage_tolerance (asciiBytes "5.005") ⟨5005, 3⟩ ⟨5, 0⟩ 1 (by decide)).1 (by decide),
   (c6_set_voltage_tolerance (asciiBytes "5.02") ⟨502, 2⟩ ⟨5, 0⟩ 1 (by decide)).2 (by decide)⟩

/-- C8 counterexample: the claim says a verification failure confirming OCP
enable on channel 2 means no command for channels 3 or 4 is ever issued; but
the all-channel disable phase that runs before the per-channel loop has
already issued commands addressing channels 3 and 4 (`EXON3:0`, `COMP4:0`,
…), as the trace of the aborted run shows. -/
theorem c8_reset_cex :
    reset_settings failOcp2Dev [] =
      (Except.error "Could not enable overcurrent protection on channel 2!",
      ["LOCK:1", "OUT1234:0", "STATUS?", "EXON1:0",
      "EXON2:0", "EXON3:0", "EXON4:0", "EXIT1:0",
      "EXIT2:0", "EXIT3:0", "EXIT4:0", "COMP1:0",
      "COMP2:0", "COMP3:0", "COMP4:0", "OCPSET1:5.100",
      "ISET1?", "OCP1:1", "OCP1?", "OVPSET1:31.000",
      "VSET1?", "OVP1:1", "OVP1?", "VSET1:0.000",
      "VSET1?", "ISET1:0.000", "ISET1?", "OCPSET2:5.100",
      "ISET2?", "OCP2:1", "OCP2?"]) ∧
    "EXON3:0" ∈ (reset_settings failOcp2Dev []).2 ∧
    "COMP4:0" ∈ (reset_settings failOcp2Dev []).2 :=
  ⟨rfl, by decide, by decide⟩

/-- C8 as amended: `reset_settings` issues its steps in exactly the fixed
order — lock buttons; disable output, external switch, external trigger,
external compensation on all channels; then for each channel 1–4 ascending
the OCP/OVP/voltage/current setup — as the complete trace of a fully
confirming device shows; and a verification failure (here: OCP enable does
not confirm on channel 2) aborts every remaining step, so no subsequent
command is issued: no per-channel setup command for channels 3 or 4 appears
(the earlier all-channel disable phase has, however, already addressed
channels 3 and 4). -/
theorem c8_reset_order_and_abort :
    reset_settings confirmDev [] = (Except.ok (),
      ["LOCK:1", "OUT1234:0", "STATUS?", "EXON1:0",
      "EXON2:0", "EXON3:0", "EXON4:0", "EXIT1:0",
      "EXIT2:0", "EXIT3:0", "EXIT4:0", "COMP1:0",
      "COMP2:0", "COMP3:0", "COMP4:0", "OCPSET1:5.100",
      "ISET1?", "OCP1:1", "OCP1?", "OVPSET1:31.000",
      "VSET1?", "OVP1:1", "OVP1?", "VSET1:0.000",
      "VSET1?", "ISET1:0.000", "ISET1?", "OCPSET2:5.100",
      "ISET2?", "OCP2:1", "OCP2?", "OVPSET2:31.000",
      "VSET2?", "OVP2:1", "OVP2?", "VSET2:0.000",
      "VSET2?", "ISET2:0.000", "ISET2?", "OCPSET3:5.100",
      "ISET3?", "OCP3:1", "OCP3?", "OVPSET3:31.000",
      "VSET3?", "OVP3:1", "OVP3?", "VSET3:0.000",
      "VSET3?", "ISET3:0.000", "ISET3?", "OCPSET4:5.100",
      "ISET4?", "OCP4:1", "OCP4?", "OVPSET4:31.000",
      "VSET4?", "OVP4:1", "OVP4?", "VSET4:0.000",
      "VSET4?", "ISET4:0.000", "ISET4?"]) ∧
    reset_settings failOcp2Dev [] =
      (Except.error "Could not enable overcurrent protection on channel 2!",
      ["LOCK:1", "OUT1234:0", "STATUS?", "EXON1:0",
      "EXON2:0", "EXON3:0", "EXON4:0", "EXIT1:0",
      "EXIT2:0", "EXIT3:0", "EXIT4:0", "COMP1:0",
      "COMP2:0", "COMP3:0", "COMP4:0", "OCPSET1:5.100",
      "ISET1?", "OCP1:1", "OCP1?", "OVPSET1:31.000",
      "VSET1?", "OVP1:1", "OVP1?", "VSET1:0.000",
      "VSET1?", "ISET1:0.000", "ISET1?", "OCPSET2:5.100",
      "ISET2?", "OCP2:1", "OCP2?"]) ∧
    "OCPSET3:5.100" ∉ (reset_settings failOcp2Dev []).2 ∧
    "OCP3:1" ∉ (reset_settings failOcp2Dev []).2 ∧
    "OVPSET3:31.000" ∉ (reset_settings failOcp2Dev []).2 ∧
    "OVP3:1" ∉ (reset_settings failOcp2Dev []).2 ∧
    "VSET3:0.000" ∉ (reset_settings failOcp2Dev []).2 ∧
    "ISET3:0.000" ∉ (reset_settings failOcp2Dev []).2 ∧
    "OCPSET4:5.100" ∉ (reset_settings failOcp2Dev []).2 ∧
    "ISET4?" ∉ (reset_settings failOcp2Dev []).2 :=
  ⟨rfl, rfl, by decide, by decide, by decide, by decide, by decide, by decide, by decide,
    by decide⟩

/-- C10: for every integer channel greater than 4, `enable_output` and
`disable_output` pass the (never-true) range guard, send `OUT<ch>:1` /
`OUT<ch>:0` on the wire, query the status, and then raise an `IndexError`
reading position `3 + channel` of the 8-character status string — instead
of failing with `InvalidChannel` before any wire traffic. -/
theorem c10_enable_output_index_error (c : Int) (h : 4 < c) :
    enable_output confirmDev c [] =
      (Except.error "IndexError: string index out of range",
        ["OUT" ++ toString c ++ ":1", "STATUS?"]) ∧
    disable_output confirmDev c [] =
      (Except.error "IndexError: string index out of range",
        ["OUT" ++ toString c ++ ":0", "STATUS?"]) := by
  have hg : ¬ ((0 : Int) > c ∧ c > 4) := by omega
  have hc0 : ¬ (c = 0) := by omega
  have hlen : (statusStr 0).length = 8 := by decide
  have hidx : (statusStr 0)[(3 + c).toNat]? = none := by
    rw [List.getElem?_eq_none_iff, hlen]
    omega
  have hpos : (0 : Int) ≤ 3 + c := by omega
  constructor <;>
    simp [enable_output, disable_output, hg, hc0, get_status_byte, sendCommand,
      confirmDev, confirmReply, lastCmd, pyIndex, hpos, hidx]

/-- C10 witness: at channel 5 the commands `OUT5:1` / `OUT5:0` go on the
wire and the subsequent status indexing raises `IndexError`. -/
theorem c10_enable_output_index_error_witness :
    enable_output confirmDev 5 [] =
      (Except.error "IndexError: string index out of range", ["OUT5:1", "STATUS?"]) ∧
    disable_output confirmDev 5 [] =
      (Except.error "IndexError: string index out of range", ["OUT5:0", "STATUS?"]) :=
  ⟨(c10_enable_output_index_error 5 (by decide)).1, (c10_enable_output_index_error 5 (by decide)).2⟩
